/-
  Spec2Proof.lean — a shallow embedding of the device synchronization engine
  of the LoRa-HomeKit bridge firmware, with theorems checking the
  natural-language specification against the code.

  Sources embedded (translated from the C++ under src/):
    * core/Device.h, Device.cpp        — Device record, findDevice
    * DeviceManagement.cpp             — registerDevice, updateDevice,
                                         removeDevice, renameDevice
    * LoRaModule.cpp                   — processLoRaPacket (post-decryption part)
    * Settings.cpp                     — saveDevices, loadDevices
    * WebServerModule.cpp              — handleSetSensorType
    * Encryption.cpp                   — xorBuffer, aesDecrypt, decryptBuffer

  Modelling conventions:
    * C strings (char[32] fields) are Lean Strings; strncpy(dst, src, 31)
      into a zeroed buffer is modelled by taking the first 31 characters.
    * JSON documents are modelled by a structure of optional fields, one per
      key the code reads; containsKey(key) is Option.isSome of the field.
      Numeric JSON values (floats in the source) are modelled as exact
      integers: no claim below depends on floating-point arithmetic,
      only on which fields are read and written.
    * The devices array together with device_count is modelled as the list
      of the first device_count slots; registerDevice appends a slot.
    * The external HomeKit runtime (HomeSpan) issues accessory ids; the
      value it returns from getAID() is passed in as a parameter newAid,
      and homekit_started as a parameter hk.  SpanCharacteristic pointers
      are runtime handles outside the registry state and are not modelled;
      the only registry-visible field they feed is not read by any claim.
    * NVS (Preferences) persistence is modelled by the list of per-device
      key groups that saveDevices writes, in index order.
-/

import Mathlib

set_option linter.unusedVariables false

namespace LoRaBridge

/-- Config.h: MAX_DEVICES. -/
def MAX_DEVICES : Nat := 20

/-- strncpy(dst, src, sizeof(dst)-1) into a 32-byte zeroed buffer:
    the stored string is the first 31 characters of the source. -/
def take31 (s : String) : String := String.mk (s.data.take 31)

/-- A JSON value that the code reads with is-bool dispatch: the message
    fields m and c may carry a bool or a string. -/
inductive BoolOrStr where
  | bool (b : Bool)
  | str (s : String)
  deriving Repr, DecidableEq

/-- updateDevice's reading of the m / c fields:
    if the value is a bool, take it; otherwise compare the string form
    against on / 1 / true. -/
def boolOrStrVal : BoolOrStr → Bool
  | .bool b => b
  | .str s => s == "on" || s == "1" || s == "true"

/-- The decrypted, parsed radio packet: one optional field per JSON key the
    code reads (k, id, t, hu, b, l, lux, m, c).  containsKey is isSome. -/
structure Msg where
  k : Option String := none
  id : Option String := none
  t : Option Int := none
  hu : Option Int := none
  b : Option Int := none
  l : Option Int := none
  lux : Option Int := none
  m : Option BoolOrStr := none
  c : Option BoolOrStr := none
  deriving Repr, DecidableEq

/-- core/Device.h: struct Device.  The SpanCharacteristic pointers are
    runtime handles of the external accessory runtime and are not part of
    the registry state modelled here; aid is kept because persistence and
    lifecycle claims mention the accessory handle. -/
structure Device where
  id : String := ""
  name : String := ""
  active : Bool := false
  rssi : Int := 0
  last_seen : Nat := 0
  has_temp : Bool := false
  has_hum : Bool := false
  has_batt : Bool := false
  has_light : Bool := false
  has_motion : Bool := false
  has_contact : Bool := false
  contact_type : Nat := 0
  motion_type : Nat := 0
  temperature : Int := 0
  humidity : Int := 0
  battery : Int := 0
  lux : Int := 0
  motion : Bool := false
  contact : Bool := false
  aid : Nat := 0
  deriving Repr, DecidableEq

/-- memset(dev, 0, sizeof(Device)): the all-zero record. -/
def defaultDevice : Device := {}

/-- Device.cpp: findDevice — linear scan, first record that is active and
    whose stored id equals the searched id. -/
def findDevice (id : String) (ds : List Device) : Option Device :=
  ds.find? (fun d => d.active && d.id == id)

/-- Mutation through the pointer returned by a linear scan: replace the
    first element satisfying p by f of it, leave everything else alone. -/
def updateFirst (p : Device → Bool) (f : Device → Device) : List Device → List Device
  | [] => []
  | d :: rest => if p d then f d :: rest else d :: updateFirst p f rest

/-- The slot initialisation of registerDevice: memset to zero, id copied
    into both id and name (31 chars), active set, the six capability flags
    taken from the presence of the keys t/hu/b/l/m/c in the first message,
    and the runtime-issued AID stored when homekit_started (modelled by
    the hk / newAid parameters standing for homekit_started and the AID
    the external accessory runtime issues in createHomekitAccessory). -/
def regRecord (id : String) (doc : Msg) (hk : Bool) (newAid : Nat) : Device :=
  { defaultDevice with
    id := take31 id
    name := take31 id
    active := true
    has_temp := doc.t.isSome
    has_hum := doc.hu.isSome
    has_batt := doc.b.isSome
    has_light := doc.l.isSome
    has_motion := doc.m.isSome
    has_contact := doc.c.isSome
    aid := if hk then newAid else 0 }

/-- DeviceManagement.cpp: registerDevice(id, doc).
    Full registry → nullptr and no mutation.  Otherwise append the newly
    initialised slot and return a pointer to it. -/
def registerDevice (id : String) (doc : Msg) (hk : Bool) (newAid : Nat)
    (ds : List Device) : Option Device × List Device :=
  if MAX_DEVICES ≤ ds.length then (none, ds)
  else (some (regRecord id doc hk newAid), ds ++ [regRecord id doc hk newAid])

/-- DeviceManagement.cpp: updateDevice(dev, doc, rssi).
    Always stores rssi and last_seen; then, for each key present in the
    document, stores the value into the corresponding reading field
    (each branch guards only on containsKey of its own key; the HomeKit
    setVal calls behind the characteristic-pointer null checks are
    external runtime effects, not registry state). -/
def updateDevice (dev : Device) (doc : Msg) (rssi : Int) (now : Nat) : Device :=
  { dev with
    rssi := rssi
    last_seen := now
    temperature := match doc.t with | some v => v | none => dev.temperature
    humidity := match doc.hu with | some v => v | none => dev.humidity
    battery := match doc.b with | some v => v | none => dev.battery
    lux := match doc.l with | some v => v | none => dev.lux
    motion := match doc.m with | some v => boolOrStrVal v | none => dev.motion
    contact := match doc.c with | some v => boolOrStrVal v | none => dev.contact }

/-- DeviceManagement.cpp: removeDevice(id) — scan for the first active
    record with the id; soft-delete it (active=false, aid=0, pointers
    cleared) and return true, else return false. -/
def removeDevice (id : String) : List Device → Bool × List Device
  | [] => (false, [])
  | d :: rest =>
    if d.active && d.id == id then
      (true, { d with active := false, aid := 0 } :: rest)
    else
      let r := removeDevice id rest
      (r.1, d :: r.2)

/-- DeviceManagement.cpp: renameDevice(id, newName) — nullptr from
    findDevice → false.  Otherwise the accessory is torn down (aid set to
    0) and, when homekit_started, recreated with a fresh runtime-issued
    AID; only the display name is overwritten (31 chars), the LoRa id is
    kept for packet matching. -/
def renameDevice (id newName : String) (hk : Bool) (newAid : Nat)
    (ds : List Device) : Bool × List Device :=
  match findDevice id ds with
  | none => (false, ds)
  | some _ =>
    (true,
      updateFirst (fun d => d.active && d.id == id)
        (fun d => { d with name := take31 newName, aid := if hk then newAid else 0 })
        ds)

/-- LoRaModule.cpp: processLoRaPacket, from the point where the decrypted
    buffer is parsed.  parsed = none models a JSON parse failure.  The
    gateway-key check, the id check, the find-or-register step and the
    update step follow the source order; the register branch updates the
    newly appended slot through the returned pointer. -/
def processLoRaPacket (parsed : Option Msg) (gwKey : String) (hk : Bool)
    (newAid : Nat) (rssi : Int) (now : Nat) (ds : List Device) : List Device :=
  match parsed with
  | none => ds
  | some doc =>
    match doc.k with
    | none => ds
    | some k =>
      if k ≠ gwKey then ds
      else
        match doc.id with
        | none => ds
        | some id =>
          match findDevice id ds with
          | some _ =>
            updateFirst (fun d => d.active && d.id == id)
              (fun d => updateDevice d doc rssi now) ds
          | none =>
            match registerDevice id doc hk newAid ds with
            | (none, ds2) => ds2
            | (some dev, ds2) => ds2.dropLast ++ [updateDevice dev doc rssi now]

/-- One per-device key group of the persistent snapshot, as written by
    Settings.cpp saveDevices: id, name, the six capability flags and both
    type-override bytes.  Readings, rssi, last_seen and the accessory
    handle have no keys. -/
structure SavedDevice where
  id : String
  name : String
  temp : Bool
  hum : Bool
  batt : Bool
  light : Bool
  motionF : Bool
  contactF : Bool
  ctype : Nat
  mtype : Nat
  deriving Repr, DecidableEq

/-- The key group saveDevices writes for one active record. -/
def toSaved (d : Device) : SavedDevice :=
  { id := d.id
    name := d.name
    temp := d.has_temp
    hum := d.has_hum
    batt := d.has_batt
    light := d.has_light
    motionF := d.has_motion
    contactF := d.has_contact
    ctype := d.contact_type
    mtype := d.motion_type }

/-- Settings.cpp: saveDevices — removes the previously written key groups,
    then writes one group per active record under fresh sequential indices
    0..K-1 and stores K as the count.  The resulting NVS content is the
    index-ordered list of groups. -/
def saveDevices (ds : List Device) : List SavedDevice :=
  (ds.filter (fun d => d.active)).map toSaved

/-- Settings.cpp loadDevices: the record rebuilt from one key group — a
    zeroed slot with id and name copied (31 chars), active set, the six
    flags and both type bytes restored; every transient field keeps its
    memset default. -/
def fromSaved (e : SavedDevice) : Device :=
  { defaultDevice with
    id := take31 e.id
    name := take31 e.name
    active := true
    has_temp := e.temp
    has_hum := e.hum
    has_batt := e.batt
    has_light := e.light
    has_motion := e.motionF
    has_contact := e.contactF
    contact_type := e.ctype
    motion_type := e.mtype }

/-- Settings.cpp: loadDevices — reads the stored count, iterates indices
    below both the count and MAX_DEVICES, skips any group whose id is the
    empty string (corruption guard) and appends a rebuilt record for each
    remaining group to the current registry. -/
def loadDevices (snap : List SavedDevice) (ds : List Device) : List Device :=
  ds ++ ((snap.take MAX_DEVICES).filter (fun e => e.id != "")).map fromSaved

/-- The HTTP response handleSetSensorType ends with, stripped of transport
    detail: the four error replies and the two success replies. -/
inductive SetTypeResult where
  | missingParams
  | notFound
  | invalidSensor
  | changed
  | noChange
  deriving Repr, DecidableEq

/-- WebServerModule.cpp: handleSetSensorType (past authentication).
    Empty id or sensor argument → 400 missing parameters.  Unknown device
    → 404.  The capability-guarded branches mutate contact_type or
    motion_type only when the new type differs; a sensor argument that is
    neither a contact request on a contact-capable device nor a motion
    request on a motion-capable device falls through to the 400 invalid
    reply.  On a change the registry is persisted and the accessory is
    recreated (fresh AID) when one was bound and HomeKit runs; otherwise
    the 200 no-change reply is sent.  The uint8_t conversion of the type
    argument is the mod-256 reduction. -/
def handleSetSensorType (id sensor : String) (newTypeArg : Nat) (hk : Bool)
    (newAid : Nat) (ds : List Device) : SetTypeResult × List Device :=
  if id = "" || sensor = "" then (.missingParams, ds)
  else
    match findDevice id ds with
    | none => (.notFound, ds)
    | some dev =>
      let newType := newTypeArg % 256
      if sensor = "contact" && dev.has_contact then
        if dev.contact_type ≠ newType then
          (.changed,
            updateFirst (fun d => d.active && d.id == id)
              (fun d =>
                { d with
                  contact_type := newType
                  aid := if 0 < d.aid && hk then newAid else d.aid })
              ds)
        else (.noChange, ds)
      else if sensor = "motion" && dev.has_motion then
        if dev.motion_type ≠ newType then
          (.changed,
            updateFirst (fun d => d.active && d.id == id)
              (fun d =>
                { d with
                  motion_type := newType
                  aid := if 0 < d.aid && hk then newAid else d.aid })
              ds)
        else (.noChange, ds)
      else (.invalidSensor, ds)

/-- MQTTModule.cpp publishDeviceData: which state topics one packet makes
    the bridge publish for a device (each publication requires both the
    message key and the capability flag; rssi is always published). -/
structure PublishedTopics where
  temp : Bool
  hum : Bool
  batt : Bool
  luxT : Bool
  motionT : Bool
  contactT : Bool
  rssiT : Bool
  deriving Repr, DecidableEq

/-- MQTTModule.cpp: publishDeviceData(dev, doc, rssi) — temperature,
    humidity, battery, motion and contact fire on their message key and
    flag; the lux state topic fires on containsKey of the key lux (not l)
    and has_light. -/
def publishDeviceData (dev : Device) (doc : Msg) : PublishedTopics :=
  { temp := doc.t.isSome && dev.has_temp
    hum := doc.hu.isSome && dev.has_hum
    batt := doc.b.isSome && dev.has_batt
    luxT := doc.lux.isSome && dev.has_light
    motionT := doc.m.isSome && dev.has_motion
    contactT := doc.c.isSome && dev.has_contact
    rssiT := true }

/-- Encryption.cpp xorBuffer's loop from position i on: each byte is
    xor-ed with the key byte at its index mod the key length. -/
def xorFrom (key : List Nat) (i : Nat) : List Nat → List Nat
  | [] => []
  | b :: rest => (b ^^^ key.getD (i % key.length) 0) :: xorFrom key (i + 1) rest

/-- Encryption.cpp: xorBuffer(data, len) — no-op for an empty key, else
    repeating-key XOR over the whole buffer. -/
def xorBuffer (key : List Nat) (data : List Nat) : List Nat :=
  if key.length = 0 then data else xorFrom key 0 data

/-- Encryption.cpp aesDecrypt's block loop: while a whole 16-byte block
    remains, decrypt it in place with the block cipher and move on; the
    trailing partial block falls out of the loop untouched.  The mbedtls
    AES-128-ECB single-block decryption is the parameter blockDec. -/
def aesBlocks (blockDec : List Nat → List Nat) (data : List Nat) : List Nat :=
  if 16 ≤ data.length then blockDec (data.take 16) ++ aesBlocks blockDec (data.drop 16)
  else data
termination_by data.length
decreasing_by
  simp only [List.length_drop]
  omega

/-- Encryption.cpp: aesDecrypt(data, len) — returns unchanged for an empty
    key or empty buffer, else runs the block loop. -/
def aesDecrypt (blockDec : List Nat → List Nat) (key : List Nat)
    (data : List Nat) : List Nat :=
  if key.length = 0 ∨ data.length = 0 then data else aesBlocks blockDec data

/-- Config.h: the three encryption modes. -/
inductive EncryptionMode where
  | modeNone
  | modeXor
  | modeAes
  deriving Repr, DecidableEq

/-- Encryption.cpp: decryptBuffer(data, len) — dispatch on the configured
    mode; ENCRYPT_NONE and unknown modes leave the buffer alone. -/
def decryptBuffer (mode : EncryptionMode) (blockDec : List Nat → List Nat)
    (key : List Nat) (data : List Nat) : List Nat :=
  match mode with
  | .modeXor => xorBuffer key data
  | .modeAes => aesDecrypt blockDec key data
  | .modeNone => data

/-! ## Helper lemmas -/

/-- Truncation to 31 characters is the identity on strings that fit the
    char[32] fields. -/
theorem take31_eq_self {s : String} (h : s.data.length ≤ 31) : take31 s = s := by
  cases s with
  | mk data =>
    unfold take31
    rw [List.take_of_length_le h]

/-- The repeating-key XOR loop undoes itself, from any start index. -/
theorem xorFrom_involutive (key : List Nat) (data : List Nat) :
    ∀ i : Nat, xorFrom key i (xorFrom key i data) = data := by
  induction data with
  | nil => intro i; rfl
  | cons b rest ih =>
    intro i
    simp [xorFrom, Nat.xor_cancel_right, ih]

/-! ## C6 — stream-cipher round trip -/

/-- C6: for every byte buffer x and the configured repeating XOR key,
    applying stream-mode decryption twice restores the original buffer. -/
theorem stream_decrypt_involutive (blockDec : List Nat → List Nat)
    (key x : List Nat) :
    decryptBuffer .modeXor blockDec key (decryptBuffer .modeXor blockDec key x) = x := by
  simp only [decryptBuffer, xorBuffer]
  by_cases h : key.length = 0
  · simp [h]
  · simp [h, xorFrom_involutive]

/-! ## C1 — updateDevice and the capability gate -/

/-- C1 counterexample: a registered device without the humidity capability
    still gets its stored humidity overwritten by a later packet carrying
    the hu key — updateDevice guards each field on key presence, not on
    the capability flag. -/
theorem updateDevice_capability_gate_cex :
    (updateDevice
        { defaultDevice with
          id := "s1", name := "s1", active := true,
          has_temp := true, humidity := 10 }
        { hu := some 55 } 1 2).humidity = 55 ∧
    ({ defaultDevice with
        id := "s1", name := "s1", active := true,
        has_temp := true, humidity := 10 } : Device).has_hum = false := by
  exact ⟨rfl, rfl⟩

/-- C1 (amended): updateDevice always stores the packet rssi and the
    current time, and applies every reading field that is present in the
    message — regardless of the capability flags, which it never consults
    for the stored readings; absent fields and all identity/capability
    fields are left unchanged. -/
theorem updateDevice_applies_present_fields (dev : Device) (doc : Msg)
    (rssi : Int) (now : Nat) :
    (updateDevice dev doc rssi now).rssi = rssi ∧
    (updateDevice dev doc rssi now).last_seen = now ∧
    (updateDevice dev doc rssi now).temperature
      = (match doc.t with | some v => v | none => dev.temperature) ∧
    (updateDevice dev doc rssi now).humidity
      = (match doc.hu with | some v => v | none => dev.humidity) ∧
    (updateDevice dev doc rssi now).battery
      = (match doc.b with | some v => v | none => dev.battery) ∧
    (updateDevice dev doc rssi now).lux
      = (match doc.l with | some v => v | none => dev.lux) ∧
    (updateDevice dev doc rssi now).motion
      = (match doc.m with | some v => boolOrStrVal v | none => dev.motion) ∧
    (updateDevice dev doc rssi now).contact
      = (match doc.c with | some v => boolOrStrVal v | none => dev.contact) ∧
    (updateDevice dev doc rssi now).id = dev.id ∧
    (updateDevice dev doc rssi now).name = dev.name ∧
    (updateDevice dev doc rssi now).active = dev.active ∧
    (updateDevice dev doc rssi now).has_temp = dev.has_temp ∧
    (updateDevice dev doc rssi now).has_hum = dev.has_hum ∧
    (updateDevice dev doc rssi now).has_batt = dev.has_batt ∧
    (updateDevice dev doc rssi now).has_light = dev.has_light ∧
    (updateDevice dev doc rssi now).has_motion = dev.has_motion ∧
    (updateDevice dev doc rssi now).has_contact = dev.has_contact := by
  refine ⟨rfl, rfl, rfl, rfl, rfl, rfl, rfl, rfl, rfl, rfl, rfl, rfl, rfl,
    rfl, rfl, rfl, rfl⟩

/-! ## C2 — registerDevice: capacity and capability inference -/

/-- C2: registerDevice returns none and leaves the registry untouched when
    the registry already holds MAX_DEVICES records; otherwise it appends
    one new active record whose six capability flags are exactly the
    presence of the keys t/hu/b/l/m/c in the first message. -/
theorem registerDevice_capacity_and_flags (id : String) (doc : Msg)
    (hk : Bool) (newAid : Nat) (ds : List Device) :
    (MAX_DEVICES ≤ ds.length →
      registerDevice id doc hk newAid ds = (none, ds)) ∧
    (ds.length < MAX_DEVICES →
      ∃ dev,
        registerDevice id doc hk newAid ds = (some dev, ds ++ [dev]) ∧
        dev.active = true ∧
        dev.has_temp = doc.t.isSome ∧
        dev.has_hum = doc.hu.isSome ∧
        dev.has_batt = doc.b.isSome ∧
        dev.has_light = doc.l.isSome ∧
        dev.has_motion = doc.m.isSome ∧
        dev.has_contact = doc.c.isSome) := by
  constructor
  · intro h
    simp [registerDevice, h]
  · intro h
    unfold registerDevice
    rw [if_neg (Nat.not_le.mpr h)]
    exact ⟨_, rfl, rfl, rfl, rfl, rfl, rfl, rfl, rfl⟩

/-- C2 witness: at a full registry of 20 records the call fails without
    mutation; on an empty registry a first message carrying t and b yields
    a record with exactly those two capabilities. -/
theorem registerDevice_capacity_and_flags_witness :
    (registerDevice "s21" { t := some 1 } false 0
        (List.replicate 20 defaultDevice)
      = (none, List.replicate 20 defaultDevice)) ∧
    (∃ dev,
      registerDevice "s1" { t := some 21, b := some 80 } false 0 []
        = (some dev, [] ++ [dev]) ∧
      dev.active = true ∧
      dev.has_temp = (some (21 : Int)).isSome ∧
      dev.has_hum = (none : Option Int).isSome ∧
      dev.has_batt = (some (80 : Int)).isSome ∧
      dev.has_light = (none : Option Int).isSome ∧
      dev.has_motion = (none : Option BoolOrStr).isSome ∧
      dev.has_contact = (none : Option BoolOrStr).isSome) := by
  constructor
  · exact (registerDevice_capacity_and_flags "s21" { t := some 1 } false 0
      (List.replicate 20 defaultDevice)).1 (by decide)
  · exact (registerDevice_capacity_and_flags "s1" { t := some 21, b := some 80 }
      false 0 []).2 (by decide)

/-- Pointwise description of mutation through a scan pointer: every slot
    is either untouched or the image of the in-place update. -/
theorem forall₂_updateFirst {R : Device → Device → Prop} (p : Device → Bool)
    (f : Device → Device) (hrefl : ∀ d, R d d) (hf : ∀ d, R d (f d)) :
    ∀ ds : List Device, List.Forall₂ R ds (updateFirst p f ds) := by
  intro ds
  induction ds with
  | nil => exact List.Forall₂.nil
  | cons d rest ih =>
    simp only [updateFirst]
    by_cases h : p d
    · rw [if_pos h]
      exact List.Forall₂.cons (hf d) (List.forall₂_same.mpr fun x _ => hrefl x)
    · rw [if_neg h]
      exact List.Forall₂.cons (hrefl d) ih

/-! ## C10 — display name defaults to the stable id -/

/-- C10: a newly registered record stores the packet id, truncated to the
    31 characters of the char[32] field, in both its id and its name; and
    renameDevice never touches any stored id — it only overwrites the
    display name of the record it renames. -/
theorem register_name_defaults_to_id (id newName : String) (doc : Msg)
    (hk : Bool) (newAid : Nat) (ds : List Device) :
    (ds.length < MAX_DEVICES →
      ∃ dev, (registerDevice id doc hk newAid ds).1 = some dev ∧
        dev.id = take31 id ∧ dev.name = take31 id) ∧
    List.Forall₂
      (fun a b => b.id = a.id ∧ (b.name = a.name ∨ b.name = take31 newName))
      ds (renameDevice id newName hk newAid ds).2 := by
  constructor
  · intro h
    unfold registerDevice
    rw [if_neg (Nat.not_le.mpr h)]
    exact ⟨_, rfl, rfl, rfl⟩
  · unfold renameDevice
    cases findDevice id ds with
    | none =>
      exact List.forall₂_same.mpr fun x _ => ⟨rfl, Or.inl rfl⟩
    | some dev =>
      exact forall₂_updateFirst _ _ (fun d => ⟨rfl, Or.inl rfl⟩)
        (fun d => ⟨rfl, Or.inr rfl⟩) ds

/-- C10 witness: registering s1 on an empty registry yields a record with
    id and name both s1; renaming it afterwards keeps the id and changes
    only the name. -/
theorem register_name_defaults_to_id_witness :
    (∃ dev,
      (registerDevice "s1" { t := some 21 } false 0 []).1 = some dev ∧
      dev.id = take31 "s1" ∧ dev.name = take31 "s1") ∧
    List.Forall₂
      (fun a b => b.id = a.id ∧ (b.name = a.name ∨ b.name = take31 "kitchen"))
      (registerDevice "s1" { t := some 21 } false 0 []).2
      (renameDevice "s1" "kitchen" false 0
        (registerDevice "s1" { t := some 21 } false 0 []).2).2 := by
  constructor
  · exact (register_name_defaults_to_id "s1" "kitchen" { t := some 21 }
      false 0 []).1 (by decide)
  · exact (register_name_defaults_to_id "s1" "kitchen" { t := some 21 }
      false 0 (registerDevice "s1" { t := some 21 } false 0 []).2).2

/-! ## C3 — ingestion errors never mutate the registry -/

/-- C3: a packet that fails JSON parsing, carries no k field, carries a k
    differing from the configured gateway key, or lacks an id field leaves
    the device registry exactly as it was. -/
theorem processPacket_error_no_mutation (gwKey : String) (hk : Bool)
    (newAid : Nat) (rssi : Int) (now : Nat) (ds : List Device) (doc : Msg)
    (k : String) :
    (processLoRaPacket none gwKey hk newAid rssi now ds = ds) ∧
    (doc.k = none →
      processLoRaPacket (some doc) gwKey hk newAid rssi now ds = ds) ∧
    (doc.k = some k → k ≠ gwKey →
      processLoRaPacket (some doc) gwKey hk newAid rssi now ds = ds) ∧
    (doc.id = none →
      processLoRaPacket (some doc) gwKey hk newAid rssi now ds = ds) := by
    refine ⟨rfl, ?_, ?_, ?_⟩
    · intro h
      simp [processLoRaPacket, h]
    · intro h hne
      simp [processLoRaPacket, h, hne]
    · intro h
      cases hk2 : doc.k with
      | none => simp [processLoRaPacket, hk2]
      | some k2 =>
        by_cases he : k2 = gwKey
        · simp [processLoRaPacket, hk2, he, h]
        · simp [processLoRaPacket, hk2, he]

/-- C3 witness: a parse failure, a missing key, a wrong key and a missing
    id each leave a concrete registry unchanged. -/
theorem processPacket_error_no_mutation_witness :
    (processLoRaPacket none "xy" false 0 1 2 [] = []) ∧
    (processLoRaPacket (some {}) "xy" false 0 1 2 [] = []) ∧
    (processLoRaPacket (some { k := some "zz" }) "xy" false 0 1 2 [] = []) ∧
    (processLoRaPacket (some { k := some "xy" }) "xy" false 0 1 2 [] = []) := by
  refine ⟨?_, ?_, ?_, ?_⟩
  · exact (processPacket_error_no_mutation "xy" false 0 1 2 [] {} "zz").1
  · exact (processPacket_error_no_mutation "xy" false 0 1 2 [] {} "zz").2.1 rfl
  · exact (processPacket_error_no_mutation "xy" false 0 1 2 []
      { k := some "zz" } "zz").2.2.1 rfl (by decide)
  · exact (processPacket_error_no_mutation "xy" false 0 1 2 []
      { k := some "xy" } "zz").2.2.2 rfl

/-! ## C5 — setSensorType on a device without the capability -/

/-- C5 counterexample: a retype request for an existing device that lacks
    the targeted capability does leave the registry untouched, but the
    reply is the 400 invalid-sensor error, not the no-change result — the
    capability test is part of the branch condition, so the request falls
    through to the invalid-sensor reply. -/
theorem setSensorType_no_capability_cex :
    handleSetSensorType "s1" "contact" 1 false 0
        [{ defaultDevice with
           id := "s1", name := "s1", active := true, has_temp := true }]
      = (SetTypeResult.invalidSensor,
         [{ defaultDevice with
            id := "s1", name := "s1", active := true, has_temp := true }]) ∧
    SetTypeResult.invalidSensor ≠ SetTypeResult.noChange := by
  decide

/-- C5 (amended): a retype request targeting a device that exists but lacks
    the targeted capability performs no mutation and reports the
    invalid-sensor error (HTTP 400); the no-change result is reserved for
    a capability-bearing device whose type already equals the request. -/
theorem setSensorType_no_capability (id sensor : String) (t : Nat) (hk : Bool)
    (newAid : Nat) (ds : List Device) (dev : Device)
    (hid : id ≠ "") (hs : sensor ≠ "")
    (hfind : findDevice id ds = some dev)
    (hc : sensor = "contact" → dev.has_contact = false)
    (hm : sensor = "motion" → dev.has_motion = false) :
    handleSetSensorType id sensor t hk newAid ds = (.invalidSensor, ds) := by
  unfold handleSetSensorType
  rw [if_neg (by simp [hid, hs])]
  rw [hfind]
  by_cases hsc : sensor = "contact"
  · subst hsc
    simp [hc rfl]
  · by_cases hsm : sensor = "motion"
    · subst hsm
      simp [hm rfl]
    · simp [hsc, hsm]

/-- C5 witness: a motion retype on a contact-only device returns the
    invalid-sensor error and the registry is unchanged. -/
theorem setSensorType_no_capability_witness :
    handleSetSensorType "s2" "motion" 2 false 0
        [{ defaultDevice with
           id := "s2", name := "s2", active := true, has_contact := true }]
      = (.invalidSensor,
         [{ defaultDevice with
            id := "s2", name := "s2", active := true, has_contact := true }]) := by
  exact setSensorType_no_capability "s2" "motion" 2 false 0
    [{ defaultDevice with
       id := "s2", name := "s2", active := true, has_contact := true }]
    { defaultDevice with
      id := "s2", name := "s2", active := true, has_contact := true }
    (by decide) (by decide) (by decide) (by decide) (by decide)

/-! ## C8 — the l and lux keys are not interchangeable -/

/-- C8 counterexample: a first message carrying only the lux key registers
    a device with has_light = false — registration reads only the l key. -/
theorem light_key_lux_cex :
    ((registerDevice "s1" { lux := some 5 } false 0 []).1.map Device.has_light
      = some false) ∧
    ((registerDevice "s1" { lux := some 5 } false 0 []).2.map Device.has_light
      = [false]) := by
  decide

/-- C8 (amended): the two light keys feed different sinks and are not
    interchangeable — registration sets has_light from the presence of the
    l key alone, updateDevice stores the lux reading from the l key alone,
    and the MQTT lux state topic fires on the presence of the lux key
    alone (together with has_light). -/
theorem light_keys_not_interchangeable (doc : Msg) (dev : Device)
    (id : String) (hk : Bool) (newAid : Nat) (ds : List Device)
    (rssi : Int) (now : Nat) :
    (ds.length < MAX_DEVICES →
      ∃ d, (registerDevice id doc hk newAid ds).1 = some d ∧
        d.has_light = doc.l.isSome) ∧
    ((updateDevice dev doc rssi now).lux
      = (match doc.l with | some v => v | none => dev.lux)) ∧
    ((publishDeviceData dev doc).luxT = (doc.lux.isSome && dev.has_light)) := by
  refine ⟨?_, rfl, rfl⟩
  intro h
  unfold registerDevice
  rw [if_neg (Nat.not_le.mpr h)]
  exact ⟨_, rfl, rfl⟩

/-- C8 witness: with a message carrying lux = 5 and no l key, registration
    yields has_light = false, the stored reading of a light-capable device
    is untouched, and the lux state topic still fires for it. -/
theorem light_keys_not_interchangeable_witness :
    (∃ d, (registerDevice "s9" { lux := some 5 } false 0 []).1 = some d ∧
      d.has_light = (none : Option Int).isSome) ∧
    ((updateDevice { defaultDevice with has_light := true, lux := 3 }
        { lux := some 5 } 1 2).lux = 3) ∧
    ((publishDeviceData { defaultDevice with has_light := true, lux := 3 }
        { lux := some 5 }).luxT = true) := by
  refine ⟨?_, ?_, ?_⟩
  · exact (light_keys_not_interchangeable { lux := some 5 } defaultDevice
      "s9" false 0 [] 1 2).1 (by decide)
  · exact (light_keys_not_interchangeable { lux := some 5 }
      { defaultDevice with has_light := true, lux := 3 } "s9" false 0 [] 1 2).2.1
  · exact (light_keys_not_interchangeable { lux := some 5 }
      { defaultDevice with has_light := true, lux := 3 } "s9" false 0 [] 1 2).2.2

/-! ## C7 — block mode touches only whole 16-byte blocks -/

/-- The block loop keeps the buffer length and never writes past the last
    whole 16-byte block, for any length-preserving block cipher. -/
theorem aesBlocks_frame (f : List Nat → List Nat)
    (hf : ∀ b : List Nat, b.length = 16 → (f b).length = 16) :
    ∀ (n : Nat) (data : List Nat), data.length ≤ n →
      (aesBlocks f data).length = data.length ∧
      ∀ i, 16 * (data.length / 16) ≤ i →
        (aesBlocks f data)[i]? = data[i]? := by
  intro n
  induction n with
  | zero =>
    intro data h
    rw [aesBlocks, if_neg (by omega)]
    exact ⟨rfl, fun i hi => rfl⟩
  | succ n ih =>
    intro data h
    rw [aesBlocks]
    by_cases h16 : 16 ≤ data.length
    · rw [if_pos h16]
      have htake : (data.take 16).length = 16 := by
        rw [List.length_take]
        omega
      have hflen : (f (data.take 16)).length = 16 := hf _ htake
      have hdrop : (data.drop 16).length = data.length - 16 :=
        List.length_drop 16 data
      have hrec := ih (data.drop 16) (by omega)
      have hdiv : 16 * (data.length / 16) = 16 * ((data.length - 16) / 16) + 16 := by
        have hsplit : data.length = data.length - 16 + 16 := by omega
        rw [hsplit, Nat.add_div_right _ (by norm_num)]
        omega
      constructor
      · rw [List.length_append, hflen, hrec.1, hdrop]
        omega
      · intro i hi
        rw [List.getElem?_append_right (by omega)]
        rw [hflen]
        rw [hrec.2 (i - 16) (by rw [hdrop]; omega)]
        rw [List.getElem?_drop]
        congr 1
        omega
    · rw [if_neg h16]
      exact ⟨rfl, fun i hi => rfl⟩

/-- C7: block (AES-ECB) decryption preserves the buffer length and leaves
    every byte from index 16*(len/16) on unchanged — the trailing partial
    block (the whole buffer when len < 16) is untouched, for any
    length-preserving single-block cipher. -/
theorem aes_partial_block_untouched (f : List Nat → List Nat)
    (key data : List Nat)
    (hf : ∀ b : List Nat, b.length = 16 → (f b).length = 16) :
    (aesDecrypt f key data).length = data.length ∧
    ∀ i, 16 * (data.length / 16) ≤ i →
      (aesDecrypt f key data)[i]? = data[i]? := by
  unfold aesDecrypt
  by_cases h : key.length = 0 ∨ data.length = 0
  · rw [if_pos h]
    exact ⟨rfl, fun i hi => rfl⟩
  · rw [if_neg h]
    exact aesBlocks_frame f hf data.length data le_rfl

/-- C7 witness: on a 20-byte buffer the length is preserved and byte 17,
    inside the trailing partial block, is unchanged. -/
theorem aes_partial_block_untouched_witness :
    (aesDecrypt List.reverse [1] (List.range 20)).length
      = (List.range 20).length ∧
    (aesDecrypt List.reverse [1] (List.range 20))[17]?
      = (List.range 20)[17]? := by
  have h := aes_partial_block_untouched List.reverse [1] (List.range 20)
    (fun b hb => by simp [hb])
  exact ⟨h.1, h.2 17 (by decide)⟩

/-! ## C4 — persistence round trip -/

/-- C4 counterexample: an active record whose id is the empty string is
    written by saveDevices but silently skipped by loadDevices (the
    corruption guard), so it is not reconstructed after a restart. -/
theorem roundtrip_empty_id_cex :
    saveDevices
        [{ defaultDevice with
           id := "", name := "x", active := true, has_temp := true }]
      = [{ id := "", name := "x", temp := true, hum := false, batt := false,
           light := false, motionF := false, contactF := false,
           ctype := 0, mtype := 0 }] ∧
    loadDevices
        (saveDevices
          [{ defaultDevice with
             id := "", name := "x", active := true, has_temp := true }]) []
      = [] := by
  decide

/-- C4 (amended): for a registry within capacity whose active records all
    carry a nonempty id (ids and names fit their char[32] fields),
    saveDevices followed by a restart and loadDevices reconstructs exactly
    the records active at save time, in order, with the same id, name, six
    capability flags and both type overrides, and with every transient
    field (readings, rssi, last_seen, accessory handle) back at its
    zeroed default; inactive records are not restored, and an active
    record with an empty id would be skipped by the corruption guard. -/
theorem save_load_roundtrip (ds : List Device)
    (hlen : ds.length ≤ MAX_DEVICES)
    (hwf : ∀ d ∈ ds, d.active = true →
      d.id.data.length ≤ 31 ∧ d.name.data.length ≤ 31 ∧ d.id ≠ "") :
    loadDevices (saveDevices ds) [] =
      (ds.filter (fun d => d.active)).map (fun d =>
        { defaultDevice with
          id := d.id, name := d.name, active := true,
          has_temp := d.has_temp, has_hum := d.has_hum,
          has_batt := d.has_batt, has_light := d.has_light,
          has_motion := d.has_motion, has_contact := d.has_contact,
          contact_type := d.contact_type, motion_type := d.motion_type }) := by
  have hA : ∀ d ∈ ds.filter (fun d => d.active),
      d.id.data.length ≤ 31 ∧ d.name.data.length ≤ 31 ∧ d.id ≠ "" := by
    intro d hd
    have hm := List.mem_filter.mp hd
    exact hwf d hm.1 (by simpa using hm.2)
  unfold loadDevices saveDevices
  rw [List.take_of_length_le (by
    rw [List.length_map]
    exact le_trans (List.length_filter_le _ _) hlen)]
  rw [List.filter_eq_self.mpr (by
    intro e he
    obtain ⟨d, hd, rfl⟩ := List.mem_map.mp he
    simpa [toSaved] using (hA d hd).2.2)]
  rw [List.nil_append, List.map_map]
  apply List.map_congr_left
  intro d hd
  obtain ⟨h1, h2, h3⟩ := hA d hd
  simp [fromSaved, toSaved, take31_eq_self h1, take31_eq_self h2]

/-- C4 witness: a two-slot registry holding one active and one soft-deleted
    record round-trips to exactly the active record with default
    transients. -/
theorem save_load_roundtrip_witness :
    loadDevices
        (saveDevices
          [{ defaultDevice with
             id := "a1", name := "porch", active := true, has_temp := true,
             has_contact := true, contact_type := 2, rssi := -70,
             temperature := 21, aid := 5 },
           { defaultDevice with
             id := "b2", name := "b2", active := false, has_motion := true }])
        [] =
      ([{ defaultDevice with
          id := "a1", name := "porch", active := true, has_temp := true,
          has_contact := true, contact_type := 2, rssi := -70,
          temperature := 21, aid := 5 },
        { defaultDevice with
          id := "b2", name := "b2", active := false, has_motion := true }].filter
            (fun d => d.active)).map (fun d =>
        { defaultDevice with
          id := d.id, name := d.name, active := true,
          has_temp := d.has_temp, has_hum := d.has_hum,
          has_batt := d.has_batt, has_light := d.has_light,
          has_motion := d.has_motion, has_contact := d.has_contact,
          contact_type := d.contact_type, motion_type := d.motion_type }) := by
  exact save_load_roundtrip
    [{ defaultDevice with
       id := "a1", name := "porch", active := true, has_temp := true,
       has_contact := true, contact_type := 2, rssi := -70,
       temperature := 21, aid := 5 },
     { defaultDevice with
       id := "b2", name := "b2", active := false, has_motion := true }]
    (by decide) (by decide)

/-! ## C9 — at most one active record per stable id -/

/-- The registry invariant: no two records are simultaneously active with
    the same stored id. -/
def AtMostOneActivePerId (ds : List Device) : Prop :=
  List.Pairwise
    (fun a b => a.active = true → b.active = true → a.id ≠ b.id) ds

instance (ds : List Device) : Decidable (AtMostOneActivePerId ds) := by
  unfold AtMostOneActivePerId
  infer_instance

/-- Every slot of the scan-pointer mutation is an original slot or the
    image of the in-place update of one. -/
theorem mem_updateFirst (p : Device → Bool) (f : Device → Device) :
    ∀ ds : List Device, ∀ b ∈ updateFirst p f ds, ∃ a ∈ ds, b = a ∨ b = f a := by
  intro ds
  induction ds with
  | nil =>
    intro b hb
    simp [updateFirst] at hb
  | cons d rest ih =>
    intro b hb
    simp only [updateFirst] at hb
    by_cases h : p d
    · rw [if_pos h] at hb
      rcases List.mem_cons.mp hb with rfl | hbr
      · exact ⟨d, List.mem_cons_self d rest, Or.inr rfl⟩
      · exact ⟨b, List.mem_cons_of_mem d hbr, Or.inl rfl⟩
    · rw [if_neg h] at hb
      rcases List.mem_cons.mp hb with rfl | hbr
      · exact ⟨b, List.mem_cons_self b rest, Or.inl rfl⟩
      · obtain ⟨a, ha, hba⟩ := ih b hbr
        exact ⟨a, List.mem_cons_of_mem d ha, hba⟩

/-- Pairwise relations survive the scan-pointer mutation when the in-place
    update respects the relation on both sides. -/
theorem pairwise_updateFirst {R : Device → Device → Prop}
    (p : Device → Bool) (f : Device → Device)
    (hfr : ∀ a b, R a b → R a (f b)) (hfl : ∀ a b, R a b → R (f a) b) :
    ∀ ds : List Device, List.Pairwise R ds →
      List.Pairwise R (updateFirst p f ds) := by
  intro ds
  induction ds with
  | nil =>
    intro h
    exact List.Pairwise.nil
  | cons d rest ih =>
    intro h
    rcases List.pairwise_cons.mp h with ⟨hd, hrest⟩
    simp only [updateFirst]
    by_cases hp : p d
    · rw [if_pos hp]
      exact List.pairwise_cons.mpr ⟨fun b hb => hfl d b (hd b hb), hrest⟩
    · rw [if_neg hp]
      refine List.pairwise_cons.mpr ⟨?_, ih hrest⟩
      intro b hb
      obtain ⟨a, ha, hba⟩ := mem_updateFirst p f rest b hb
      rcases hba with rfl | rfl
      · exact hd b ha
      · exact hfr d a (hd a ha)

/-- The registry part of removeDevice is the scan-pointer soft delete. -/
theorem removeDevice_snd (id : String) :
    ∀ ds : List Device,
      (removeDevice id ds).2 =
        updateFirst (fun d => d.active && d.id == id)
          (fun d => { d with active := false, aid := 0 }) ds := by
  intro ds
  induction ds with
  | nil => rfl
  | cons d rest ih =>
    simp only [removeDevice, updateFirst]
    by_cases h : (d.active && d.id == id) = true
    · rw [if_pos h, if_pos h]
    · rw [if_neg h, if_neg h]
      simpa using ih

/-- C9 counterexample: registerDevice performs no duplicate check — called
    directly for an id that already has an active record it appends a
    second active record with the same stored id, breaking the invariant.
    (The only existing-id check lives in processLoRaPacket's findDevice
    lookup, not in registerDevice.) -/
theorem register_duplicate_active_cex :
    ((registerDevice "s1" { t := some 1 } false 0
        (registerDevice "s1" { t := some 1 } false 0 []).2).2.map Device.id
      = ["s1", "s1"]) ∧
    ((registerDevice "s1" { t := some 1 } false 0
        (registerDevice "s1" { t := some 1 } false 0 []).2).2.map Device.active
      = [true, true]) ∧
    ¬ AtMostOneActivePerId
        (registerDevice "s1" { t := some 1 } false 0
          (registerDevice "s1" { t := some 1 } false 0 []).2).2 := by
  decide

/-- C9 (amended): the at-most-one-active-record-per-id invariant is
    preserved by packet processing (whose register path runs only when
    findDevice fails; packet ids are assumed to fit the 31-character id
    field, since registration truncates the stored id), by removeDevice
    and renameDevice unconditionally, and by a loadDevices of the snapshot
    saved from an invariant-satisfying registry with well-formed ids — but
    not by a direct registerDevice call for an already-active id, which
    appends an unconditional duplicate. -/
theorem invariant_preserved (parsed : Option Msg) (gwKey : String)
    (hk : Bool) (newAid : Nat) (rssi : Int) (now : Nat) (ds : List Device)
    (id newName : String)
    (hids : ∀ doc : Msg, parsed = some doc →
      ∀ s : String, doc.id = some s → s.data.length ≤ 31)
    (hwf : ∀ d ∈ ds, d.active = true → d.id.data.length ≤ 31)
    (hinv : AtMostOneActivePerId ds) :
    AtMostOneActivePerId (processLoRaPacket parsed gwKey hk newAid rssi now ds) ∧
    AtMostOneActivePerId (removeDevice id ds).2 ∧
    AtMostOneActivePerId (renameDevice id newName hk newAid ds).2 ∧
    AtMostOneActivePerId (loadDevices (saveDevices ds) []) := by
  unfold AtMostOneActivePerId at hinv ⊢
  refine ⟨?_, ?_, ?_, ?_⟩
  · -- packet processing
    cases parsed with
    | none => exact hinv
    | some doc =>
      cases hdk : doc.k with
      | none =>
        have hred : processLoRaPacket (some doc) gwKey hk newAid rssi now ds = ds := by
          simp [processLoRaPacket, hdk]
        rw [hred]
        exact hinv
      | some k =>
        by_cases hke : k = gwKey
        · cases hdid : doc.id with
          | none =>
            have hred :
                processLoRaPacket (some doc) gwKey hk newAid rssi now ds = ds := by
              simp [processLoRaPacket, hdk, hke, hdid]
            rw [hred]
            exact hinv
          | some s =>
            cases hfd : findDevice s ds with
            | some dev =>
              have hred :
                  processLoRaPacket (some doc) gwKey hk newAid rssi now ds =
                    updateFirst (fun d => d.active && d.id == s)
                      (fun d => updateDevice d doc rssi now) ds := by
                simp [processLoRaPacket, hdk, hke, hdid, hfd]
              rw [hred]
              exact pairwise_updateFirst
                (fun d => d.active && d.id == s)
                (fun d => updateDevice d doc rssi now)
                (fun a b h => h) (fun a b h => h) ds hinv
            | none =>
              by_cases hful : MAX_DEVICES ≤ ds.length
              · have hred :
                    processLoRaPacket (some doc) gwKey hk newAid rssi now ds = ds := by
                  simp [processLoRaPacket, hdk, hke, hdid, hfd,
                    registerDevice, hful]
                rw [hred]
                exact hinv
              · have hred :
                    processLoRaPacket (some doc) gwKey hk newAid rssi now ds =
                      ds ++ [updateDevice (regRecord s doc hk newAid)
                        doc rssi now] := by
                  simp [processLoRaPacket, hdk, hke, hdid, hfd,
                    registerDevice, hful, List.dropLast_concat]
                rw [hred]
                refine List.pairwise_append.mpr
                  ⟨hinv, List.pairwise_singleton _ _, ?_⟩
                intro a ha b hb
                rw [List.mem_singleton] at hb
                subst hb
                intro haact hbact
                show a.id ≠ take31 s
                rw [take31_eq_self (hids doc rfl s hdid)]
                have hnone := List.find?_eq_none.mp hfd a ha
                intro hcontra
                apply hnone
                simp [haact, hcontra]
        · have hred :
              processLoRaPacket (some doc) gwKey hk newAid rssi now ds = ds := by
            simp [processLoRaPacket, hdk, hke]
          rw [hred]
          exact hinv
  · -- removeDevice
    rw [removeDevice_snd id ds]
    exact pairwise_updateFirst
      (fun d => d.active && d.id == id)
      (fun d => { d with active := false, aid := 0 })
      (fun a b h ha hb => nomatch hb) (fun a b h ha hb => nomatch ha) ds hinv
  · -- renameDevice
    unfold renameDevice
    cases findDevice id ds with
    | none => exact hinv
    | some dev =>
      exact pairwise_updateFirst
        (fun d => d.active && d.id == id)
        (fun d => { d with name := take31 newName,
                           aid := if hk then newAid else 0 })
        (fun a b h => h) (fun a b h => h) ds hinv
  · -- loadDevices of the saved snapshot
    unfold loadDevices saveDevices
    rw [List.nil_append, List.pairwise_map]
    apply List.Pairwise.sublist
      ((List.filter_sublist _).trans (List.take_sublist _ _))
    rw [List.pairwise_map]
    have hApair :
        List.Pairwise
          (fun a b : Device => a.active = true → b.active = true → a.id ≠ b.id)
          (ds.filter (fun d => d.active)) :=
      List.Pairwise.sublist (List.filter_sublist ds) hinv
    apply List.Pairwise.imp_of_mem ?_ hApair
    intro a b hma hmb hR
    intro h1 h2
    have hmaf := List.mem_filter.mp hma
    have hmbf := List.mem_filter.mp hmb
    have haact : a.active = true := by simpa using hmaf.2
    have hbact : b.active = true := by simpa using hmbf.2
    have hia : take31 a.id = a.id := take31_eq_self (hwf a hmaf.1 haact)
    have hib : take31 b.id = b.id := take31_eq_self (hwf b hmbf.1 hbact)
    have hgoal : (fromSaved (toSaved a)).id = a.id := by
      simp [fromSaved, toSaved, hia]
    have hgoal2 : (fromSaved (toSaved b)).id = b.id := by
      simp [fromSaved, toSaved, hib]
    rw [hgoal, hgoal2]
    exact hR haact hbact

/-- C9 witness: on a one-record registry the invariant survives a valid
    packet from a new id, a remove, a rename and a reload of the saved
    snapshot. -/
theorem invariant_preserved_witness :
    AtMostOneActivePerId
      (processLoRaPacket (some { k := some "xy", id := some "n1", t := some 3 })
        "xy" false 0 1 2
        [{ defaultDevice with
           id := "a1", name := "a1", active := true, has_temp := true }]) ∧
    AtMostOneActivePerId
      (removeDevice "a1"
        [{ defaultDevice with
           id := "a1", name := "a1", active := true, has_temp := true }]).2 ∧
    AtMostOneActivePerId
      (renameDevice "a1" "den" false 0
        [{ defaultDevice with
           id := "a1", name := "a1", active := true, has_temp := true }]).2 ∧
    AtMostOneActivePerId
      (loadDevices
        (saveDevices
          [{ defaultDevice with
             id := "a1", name := "a1", active := true, has_temp := true }])
        []) := by
  exact invariant_preserved
    (some { k := some "xy", id := some "n1", t := some 3 }) "xy" false 0 1 2
    [{ defaultDevice with
       id := "a1", name := "a1", active := true, has_temp := true }]
    "a1" "den"
    (by
      intro doc hdoc s hsid
      injection hdoc with h
      subst h
      injection hsid with h2
      subst h2
      decide)
    (by decide) (by decide)

end LoRaBridge
